import Mathlib

/-!
# AuthPlz core: a shallow embedding

Embedded sources:

* `lib/appcontext/bind_2fa.go`  : `Bind2FARequest`, `Get2FARequest`
* `lib/modules/audit/audit_api.go` : `GetEvents`
* `controllers/datastore/user.go` : `User`, `SecondFactors`, `AddUser`
* `modules/core/core_test.go` : the mock handler and the two test scenarios

The core coordinator and the token controller are exercised by
`core_test.go` but their sources are not at hand; they are modelled from
the specification and marked as such.
-/

namespace AuthPlz

/-! ## Session flash state (`lib/appcontext/bind_2fa.go`) -/

/-- A non-nil `interface{}` stored in a session. `Get2FARequest` only ever
asserts the dynamic type `string`; every other dynamic type is `other`. -/
inductive Value where
  | str (s : String)
  | other (tag : Nat)
deriving DecidableEq, Repr

/-- The Go map `session.Values`; `none` is the nil a Go map read yields for a
key that is not present. -/
abbrev Values := String → Option Value

/-- Go map assignment `m[k] = v`. -/
def Values.set (m : Values) (k : String) (v : Value) : Values :=
  fun j => if j = k then some v else m j

/-- A session as the session store hands it out. -/
structure Session where
  Values : Values

/-- A session that holds nothing yet. -/
def Session.fresh : Session := { Values := fun _ => none }

/-- Result codes of package `api`. Only `ResultError` is referred to by the
embedded sources; the constant is kept symbolic. -/
inductive ApiResult where
  | ResultOk
  | ResultError
deriving DecidableEq, Repr

/-- What a handler puts on the `web.ResponseWriter`. -/
inductive Written where
  | ApiResult (result : ApiResult) (message : String)
  | SessionSave (name : String)
deriving DecidableEq, Repr

/-- The part of a request context the two functions touch: the session store
(by session name), the response writer and the process log. -/
structure AuthPlzCtx where
  SessionStore : String → Session
  rw : List Written
  log : List String

def secondFactorRequestSessionKey : String := "2fa-request"

def secondFactorActionSessionKey : String := "2fa-action"

/-- Replace the session kept under `name`. -/
def storeSession (store : String → Session) (name : String) (s : Session) :
    String → Session :=
  fun n => if n = name then s else store n

/-- Embedding of `AuthPlzCtx.Bind2FARequest`. -/
def Bind2FARequest (c : AuthPlzCtx) (userid action : String) : AuthPlzCtx :=
  let secondFactorSession := c.SessionStore secondFactorRequestSessionKey
  let log := c.log ++
    ["AuthPlzCtx.Bind2faRequest adding authorization flash for user " ++ userid ++ "\n"]
  let values₁ := secondFactorSession.Values.set secondFactorRequestSessionKey (Value.str userid)
  let values₂ := values₁.set secondFactorActionSessionKey (Value.str action)
  { SessionStore :=
      storeSession c.SessionStore secondFactorRequestSessionKey { Values := values₂ }
    rw := c.rw ++ [Written.SessionSave secondFactorRequestSessionKey]
    log := log }

/-- Go type assertion `v.(string)` on a non-nil interface value. -/
def assertString : Value → Except String String
  | Value.str s => Except.ok s
  | Value.other _ => Except.error "interface conversion: interface \x7b\x7d is not string"

/-- Embedding of `AuthPlzCtx.Get2FARequest`: the context after the call and
what the call returns (`Except.error` is a run-time panic). -/
def Get2FARequest (c : AuthPlzCtx) : AuthPlzCtx × Except String (String × String) :=
  let u2fSession := c.SessionStore secondFactorRequestSessionKey
  match u2fSession.Values secondFactorRequestSessionKey,
        u2fSession.Values secondFactorActionSessionKey with
  | some u, some a =>
    match assertString u with
    | Except.error e => (c, Except.error e)
    | Except.ok userid =>
      match assertString a with
      | Except.error e => (c, Except.error e)
      | Except.ok action => (c, Except.ok (userid, action))
  | _, _ =>
    ({ c with
        rw := c.rw ++ [Written.ApiResult ApiResult.ResultError "No userid found"]
        log := c.log ++ ["AuthPlzCtx.Get2FARequest No userid found in session flash"] },
     Except.ok ("", ""))

/-- The stored user id or the stored action is missing from the 2fa session. -/
def challengeAbsent (c : AuthPlzCtx) : Prop :=
  (c.SessionStore secondFactorRequestSessionKey).Values secondFactorRequestSessionKey = none ∨
  (c.SessionStore secondFactorRequestSessionKey).Values secondFactorActionSessionKey = none

instance (c : AuthPlzCtx) : Decidable (challengeAbsent c) := by
  unfold challengeAbsent; infer_instance

/-- The call put the `No userid found` API error on the response writer. -/
def wroteNoUserid (before after : AuthPlzCtx) : Prop :=
  after.rw = before.rw ++ [Written.ApiResult ApiResult.ResultError "No userid found"]

instance (b a : AuthPlzCtx) : Decidable (wroteNoUserid b a) := by
  unfold wroteNoUserid; infer_instance

/-- A context whose session store holds only fresh sessions. -/
def AuthPlzCtx.fresh : AuthPlzCtx :=
  { SessionStore := fun _ => Session.fresh, rw := [], log := [] }

/-! ## Audit API (`lib/modules/audit/audit_api.go`) -/

/-- The audit controller as `GetEvents` uses it: `ListEvents` hands back the
Go pair `(events, err)`, with `none` for a nil error. -/
structure Controller (E : Type) where
  ListEvents : String → E × Option String

/-- The API context of the audit module: the user id of the base context
(read through `GetUserID`) and the bound controller. -/
structure APICtx (E : Type) where
  userid : String
  ac : Controller E

/-- Getter of the base context. -/
def APICtx.GetUserID {E : Type} (c : APICtx E) : String := c.userid

/-- Everything `GetEvents` does that is visible from outside, in order. -/
inductive AuditEffect (E : Type) where
  | ListEvents (userid : String)
  | WriteUnauthorized
  | WriteInternalError
  | WriteJSON (events : E)
  | Log (line : String)

/-- Embedding of `APICtx.GetEvents`, as the ordered trace of its effects. -/
def GetEvents {E : Type} (c : APICtx E) : List (AuditEffect E) :=
  if c.GetUserID = "" then
    [AuditEffect.WriteUnauthorized]
  else
    match c.ac.ListEvents c.GetUserID with
    | (_, some err) =>
      [AuditEffect.ListEvents c.GetUserID,
       AuditEffect.Log ("AuditApiCtx.GetEvents: error listing events (" ++ err ++ ")"),
       AuditEffect.WriteInternalError]
    | (events, none) =>
      [AuditEffect.ListEvents c.GetUserID, AuditEffect.WriteJSON events]

/-- The trace contains a call of `ListEvents`. -/
def AuditEffect.isListEvents {E : Type} : AuditEffect E → Bool
  | AuditEffect.ListEvents _ => true
  | _ => false

/-- The trace writes event data. -/
def AuditEffect.isWriteJSON {E : Type} : AuditEffect E → Bool
  | AuditEffect.WriteJSON _ => true
  | _ => false

/-! ## Users (`controllers/datastore/user.go`) -/

/-- Embedding of `datastore.User`. The token and event record types live in
sibling files and are type parameters; instants are seconds, `0` being the
zero `time.Time`. -/
structure User (F T A : Type) where
  ID : Nat
  CreatedAt : Nat
  UpdatedAt : Nat
  DeletedAt : Option Nat
  ExtId : String
  Email : String
  Password : String
  PasswordChanged : Nat
  Activated : Bool
  Enabled : Bool
  Locked : Bool
  Admin : Bool
  LoginRetries : Nat
  LastLogin : Nat
  FidoTokens : List F
  TotpTokens : List T
  AuditEvents : List A

/-- Embedding of `User.SecondFactors`. The method has a pointer receiver, so
the user after the call is handed back next to the answer. -/
def User.SecondFactors {F T A : Type} (u : User F T A) : Bool × User F T A :=
  (decide (u.FidoTokens.length > 0) || decide (u.TotpTokens.length > 0), u)

/-- The calls `AddUser` makes on the gorm handle: `Create` yields the handle
that replaces `dataStore.db` and the record as the insert left it; `Error`
reads the handle. -/
structure Gorm (DB F T A : Type) where
  Create : DB → User F T A → DB × User F T A
  Error : DB → Option String

/-- Embedding of `datastore.DataStore`. -/
structure DataStore (DB : Type) where
  db : DB

/-- Embedding of `DataStore.AddUser`. `IsEmail` is `govalidator.IsEmail`,
`newV4` the string of the fresh `uuid.NewV4()`. The result is the data store
after the call and the Go pair `(user, err)`. -/
def AddUser {DB F T A : Type} (IsEmail : String → Bool) (newV4 : String)
    (gorm : Gorm DB F T A) (dataStore : DataStore DB) (email pass : String) :
    DataStore DB × Option (User F T A) × Option String :=
  if !IsEmail email then
    (dataStore, none, some ("invalid email address " ++ email))
  else
    let user : User F T A :=
      { ID := 0, CreatedAt := 0, UpdatedAt := 0, DeletedAt := none
        ExtId := newV4, Email := email, Password := pass, PasswordChanged := 0
        Activated := false, Enabled := true, Locked := false, Admin := false
        LoginRetries := 0, LastLogin := 0
        FidoTokens := [], TotpTokens := [], AuditEvents := [] }
    let created := gorm.Create dataStore.db user
    let dataStore₁ : DataStore DB := { db := created.1 }
    match gorm.Error dataStore₁.db with
    | some err => (dataStore₁, none, some err)
    | none => (dataStore₁, some created.2, none)

/-! ## Core coordinator and token controller (modelled from the specification)

`modules/core/core_test.go` drives `NewCoreModule`, `BindActionHandler`,
`BindSecondFactor`, `CheckSecondFactors`, `HandleToken` and the token
controller `BuildToken`; only the test is among the sources. -/

/-- Modelled from the spec: the token error kinds of section 7 (the token
controller source is missing). -/
inductive TokenError where
  | Malformed
  | Expired
  | InvalidSignature
  | UserMismatch
deriving DecidableEq, Repr

/-- Modelled from the spec: what `HandleToken` can fail with (the core module
source is missing): a token error, an unknown action, or the error of a
collaborator passed on as it came. -/
inductive CoreError where
  | token (e : TokenError)
  | UnknownAction
  | collaborator (message : String)
deriving DecidableEq, Repr

/-- Modelled from the spec: the fields an action token encodes (the token
controller source is missing). Instants and durations are signed integers,
as `time.Duration` is. -/
structure TokenClaims where
  subjectUserID : String
  action : String
  issuedAt : Int
  expiresAt : Int
deriving DecidableEq, Repr

/-- Modelled from the spec: a token string as the parser sees it (the token
controller source is missing): either it decodes to claims and a signature,
or it cannot be parsed. -/
inductive Token where
  | signed (claims : TokenClaims) (signature : Nat)
  | unparseable (raw : String)
deriving DecidableEq, Repr

/-- Modelled from the spec: the token controller (its source is missing): a
server-held secret and the keyed signature over the claims. -/
structure TokenController where
  address : String
  secret : String
  sign : String → TokenClaims → Nat

/-- Modelled from the spec: `BuildToken` (the token controller source is
missing): encodes the triple with a keyed signature and embeds the absolute
expiry `now + validity`. The spec names no failure, so the error is nil. -/
def BuildToken (tc : TokenController) (now : Int) (subjectUserID action : String)
    (validity : Int) : Token × Option CoreError :=
  let claims : TokenClaims :=
    { subjectUserID := subjectUserID, action := action
      issuedAt := now, expiresAt := now + validity }
  (Token.signed claims (tc.sign tc.secret claims), none)

/-- Modelled from the spec: `VerifyToken` (the token controller source is
missing): `Malformed` if the encoding cannot be parsed, `InvalidSignature` if
the recomputed signature mismatches, `Expired` if now is after the expiry; the
signature is checked before any claim field is trusted. -/
def VerifyToken (tc : TokenController) (now : Int) : Token → Except TokenError TokenClaims
  | Token.unparseable _ => Except.error TokenError.Malformed
  | Token.signed claims signature =>
    if tc.sign tc.secret claims ≠ signature then Except.error TokenError.InvalidSignature
    else if now > claims.expiresAt then Except.error TokenError.Expired
    else Except.ok claims

/-- Modelled from the spec: a second-factor provider (the core module source
is missing): `IsSupported(userID)`, read against the state `σ` the capability
objects live in. -/
structure SecondFactorProvider (σ : Type) where
  IsSupported : String → σ → Bool

/-- Modelled from the spec: an action handler (the core module source is
missing): consumes the user record and the action, performs its side effect on
`σ` and returns nil or an error. -/
structure ActionHandler (σ U : Type) where
  HandleToken : U → String → σ → σ × Option String

/-- Modelled from the spec: registration in a name-keyed registry (the core
module source is missing): the last registration per name wins. -/
def register {α : Type} (registry : List (String × α)) (name : String) (x : α) :
    List (String × α) :=
  (name, x) :: registry.filter (fun e => e.1 != name)

/-- Modelled from the spec: the core coordinator (the core module source is
missing): one token controller and the two registries. The login provider
slot is left out; nothing below concerns it. -/
structure CoreModule (σ U : Type) where
  tokenControl : TokenController
  secondFactorHandlers : List (String × SecondFactorProvider σ)
  tokenHandlers : List (String × ActionHandler σ U)

/-- Modelled from the spec: `NewCoreModule` with empty registries (the core
module source is missing). -/
def NewCoreModule {σ U : Type} (tokenControl : TokenController) : CoreModule σ U :=
  { tokenControl := tokenControl, secondFactorHandlers := [], tokenHandlers := [] }

/-- Modelled from the spec: `BindSecondFactor`, a pass-through to the
second-factor registry (the core module source is missing). -/
def BindSecondFactor {σ U : Type} (cm : CoreModule σ U) (name : String)
    (provider : SecondFactorProvider σ) : CoreModule σ U :=
  { cm with secondFactorHandlers := register cm.secondFactorHandlers name provider }

/-- Modelled from the spec: `BindActionHandler`, a pass-through to the
action-handler registry (the core module source is missing). -/
def BindActionHandler {σ U : Type} (cm : CoreModule σ U) (action : String)
    (handler : ActionHandler σ U) : CoreModule σ U :=
  { cm with tokenHandlers := register cm.tokenHandlers action handler }

/-- Modelled from the spec: `CheckSecondFactors` (the core module source is
missing): queries every registered provider; `required` is true iff at least
one provider reports true. -/
def CheckSecondFactors {σ U : Type} (cm : CoreModule σ U) (s : σ) (userID : String) :
    Bool × List (String × Bool) :=
  let availability := cm.secondFactorHandlers.map (fun e => (e.1, e.2.IsSupported userID s))
  (availability.any (fun e => e.2), availability)

/-- What a token redemption yields: the Go pair `(ok, err)`, the state the
capability objects are left in, and the actions handlers were invoked with. -/
structure Redemption (σ : Type) where
  ok : Bool
  err : Option CoreError
  state : σ
  invoked : List String

/-- Modelled from the spec: `Dispatch` of the action-handler registry (the
core module source is missing): `UnknownAction` if no handler is registered,
otherwise it delegates and passes the result of the handler on verbatim. -/
def Dispatch {σ U : Type} (handlers : List (String × ActionHandler σ U)) (_userID : String)
    (user : U) (action : String) (s : σ) : Redemption σ :=
  match handlers.lookup action with
  | none => { ok := false, err := some CoreError.UnknownAction, state := s, invoked := [] }
  | some handler =>
    let r := handler.HandleToken user action s
    { ok := r.2.isNone, err := r.2.map CoreError.collaborator, state := r.1
      invoked := [action] }

/-- Modelled from the spec: `HandleToken` (the core module source is
missing): verify the token and pass failures on unchanged; a subject other
than the caller is `UserMismatch`; otherwise dispatch on the action. -/
def HandleToken {σ U : Type} (cm : CoreModule σ U) (now : Int) (callerUserID : String)
    (user : U) (token : Token) (s : σ) : Redemption σ :=
  match VerifyToken cm.tokenControl now token with
  | Except.error e => { ok := false, err := some (CoreError.token e), state := s, invoked := [] }
  | Except.ok claims =>
    if claims.subjectUserID ≠ callerUserID then
      { ok := false, err := some (CoreError.token TokenError.UserMismatch), state := s
        invoked := [] }
    else
      Dispatch cm.tokenHandlers callerUserID user claims.action s

/-! ### The mock of `modules/core/core_test.go` -/

/-- Modelled from the spec: the login outcomes (package `api` is missing);
the test only names `LoginSuccess`. -/
inductive LoginStatus where
  | LoginSuccess
  | InvalidCredentials
  | AccountLocked
  | AccountDisabled
  | NotActivated
deriving DecidableEq, Repr

/-- Embedding of the test double `MockHandler`. -/
structure MockHandler where
  LoginCallResp : LoginStatus
  SecondFactorRequired : Bool
  TokenAction : String
deriving DecidableEq, Repr

/-- Embedding of `MockHandler.IsSupported`. -/
def MockHandler.IsSupported (_userid : String) (mh : MockHandler) : Bool :=
  mh.SecondFactorRequired

/-- Embedding of `MockHandler.HandleToken`: records the action, returns nil. -/
def MockHandler.HandleToken (_u : Unit) (tokenAction : String) (mh : MockHandler) :
    MockHandler × Option String :=
  ({ mh with TokenAction := tokenAction }, none)

/-- The mock in its role as second-factor provider. -/
def mockSecondFactor : SecondFactorProvider MockHandler :=
  { IsSupported := MockHandler.IsSupported }

/-- The mock in its role as action handler. -/
def mockActionHandler : ActionHandler MockHandler Unit :=
  { HandleToken := MockHandler.HandleToken }

/-- A stand-in keyed signature for running the scenarios: any function of
secret and claims serves, verification only ever recomputes it. -/
def lengthSign (secret : String) (claims : TokenClaims) : Nat :=
  secret.length + claims.subjectUserID.length + claims.action.length +
    claims.issuedAt.natAbs + claims.expiresAt.natAbs

/-- The controller of the test: `NewTokenController("localhost", "ABCD")`. -/
def testTokenControl : TokenController :=
  { address := "localhost", secret := "ABCD", sign := lengthSign }

/-- An action handler that fails without touching the state. -/
def refusingHandler : ActionHandler MockHandler Unit :=
  { HandleToken := fun _ _ mh => (mh, some "refused") }

/-- The mock as the test sets it up; `tokenActionInvalid` stands for the
constant `api.TokenActionInvalid`, whose value is in a missing package. -/
def testMock (tokenActionInvalid : String) : MockHandler :=
  { LoginCallResp := LoginStatus.LoginSuccess, SecondFactorRequired := false
    TokenAction := tokenActionInvalid }

/-- The coordinator of the first test, after
`BindActionHandler("mock-action", &mockHandler)`. -/
def testCore : CoreModule MockHandler Unit :=
  BindActionHandler (NewCoreModule testTokenControl) "mock-action" mockActionHandler

/-- The same coordinator with a failing handler bound for the action. -/
def refusingCore : CoreModule MockHandler Unit :=
  BindActionHandler (NewCoreModule testTokenControl) "mock-action" refusingHandler

/-! ### Sample collaborators for `GetEvents` and `AddUser` -/

/-- A stand-in for `govalidator.IsEmail`: the address holds an `@`. -/
def sampleIsEmail (email : String) : Bool := email.toList.contains '@'

/-- An in-memory gorm handle: the rows created so far and the last error. -/
structure MemDB where
  rows : List (User Unit Unit Unit)
  lastError : Option String

/-- A gorm stand-in over `MemDB`: `Create` refuses a second row with the
same email, otherwise appends the row. -/
def memGorm : Gorm MemDB Unit Unit Unit :=
  { Create := fun db u =>
      if db.rows.any (fun r => r.Email == u.Email) then
        ({ db with lastError := some "duplicate email" }, u)
      else
        ({ rows := db.rows ++ [{ u with ID := db.rows.length + 1 }], lastError := none },
         { u with ID := db.rows.length + 1 })
    Error := fun db => db.lastError }

/-- An audit controller that knows one user. -/
def sampleController : Controller (List String) :=
  { ListEvents := fun userid =>
      if userid = "u1" then (["login"], none) else ([], some "no such user") }

/-! ## Facts shared by the statements below -/

theorem sessionKeys_ne : secondFactorRequestSessionKey ≠ secondFactorActionSessionKey := by
  decide

/-- Reading the session store back after `Bind2FARequest`. -/
theorem bind_store (c : AuthPlzCtx) (userid action : String) :
    ((Bind2FARequest c userid action).SessionStore secondFactorRequestSessionKey).Values
        secondFactorRequestSessionKey = some (Value.str userid) ∧
    ((Bind2FARequest c userid action).SessionStore secondFactorRequestSessionKey).Values
        secondFactorActionSessionKey = some (Value.str action) := by
  have hne := sessionKeys_ne
  constructor
  · simp [Bind2FARequest, storeSession, Values.set, hne]
  · simp [Bind2FARequest, storeSession, Values.set]

/-- The session store is never touched by `Get2FARequest`. -/
theorem get_store (c : AuthPlzCtx) : (Get2FARequest c).1.SessionStore = c.SessionStore := by
  unfold Get2FARequest
  simp only []
  split
  · split
    · rfl
    · split <;> rfl
  · rfl

/-- What `Get2FARequest` returns depends on the session store alone. -/
theorem get_result_congr (c d : AuthPlzCtx) (h : c.SessionStore = d.SessionStore) :
    (Get2FARequest c).2 = (Get2FARequest d).2 := by
  unfold Get2FARequest
  simp only [h]
  split
  · split
    · rfl
    · split <;> rfl
  · rfl

/-- When both values are stored, `Get2FARequest` leaves the whole context as
it found it. -/
theorem get_ctx_of_present (c : AuthPlzCtx) (h : ¬ challengeAbsent c) :
    (Get2FARequest c).1 = c := by
  unfold challengeAbsent at h
  unfold Get2FARequest
  simp only []
  split
  · split
    · rfl
    · split <;> rfl
  · rename_i hno
    exfalso
    apply h
    cases h1 : (c.SessionStore secondFactorRequestSessionKey).Values
        secondFactorRequestSessionKey with
    | none => exact Or.inl rfl
    | some u =>
      cases h2 : (c.SessionStore secondFactorRequestSessionKey).Values
          secondFactorActionSessionKey with
      | none => exact Or.inr rfl
      | some a => exact absurd h2 (hno u a h1)

/-- When a value is missing, `Get2FARequest` returns two empty strings and
appends the API error and the log line. -/
theorem get_of_absent (c : AuthPlzCtx) (h : challengeAbsent c) :
    Get2FARequest c =
      ({ c with
          rw := c.rw ++ [Written.ApiResult ApiResult.ResultError "No userid found"]
          log := c.log ++ ["AuthPlzCtx.Get2FARequest No userid found in session flash"] },
       Except.ok ("", "")) := by
  unfold challengeAbsent at h
  unfold Get2FARequest
  simp only []
  split
  · rename_i u a h1 h2
    rcases h with h | h
    · rw [h] at h1; cases h1
    · rw [h] at h2; cases h2
  · rfl

/-! ## Pending-challenge binder -/

/-- C1: after `Bind2FARequest(session, userid, action)`, `Get2FARequest` on the
same session returns exactly `(userid, action)` and takes the found branch:
it writes nothing and leaves the context as the bind left it. -/
theorem bind_then_get (c : AuthPlzCtx) (userid action : String) :
    (Get2FARequest (Bind2FARequest c userid action)).2 = Except.ok (userid, action) ∧
    (Get2FARequest (Bind2FARequest c userid action)).1 = Bind2FARequest c userid action ∧
    ¬ wroteNoUserid (Bind2FARequest c userid action)
        (Get2FARequest (Bind2FARequest c userid action)).1 := by
  obtain ⟨h1, h2⟩ := bind_store c userid action
  have hget : Get2FARequest (Bind2FARequest c userid action) =
      (Bind2FARequest c userid action, Except.ok (userid, action)) := by
    unfold Get2FARequest
    simp only [h1, h2, assertString]
  rw [hget]
  refine ⟨rfl, rfl, ?_⟩
  simp [wroteNoUserid]

/-- C2: whenever the stored user id or the stored action is absent,
`Get2FARequest` returns `("", "")` and writes the `No userid found` API error;
the error is written in that case only, and otherwise nothing is written. -/
theorem get_reports_absent (c : AuthPlzCtx) :
    (challengeAbsent c →
      (Get2FARequest c).2 = Except.ok ("", "") ∧ wroteNoUserid c (Get2FARequest c).1) ∧
    (wroteNoUserid c (Get2FARequest c).1 → challengeAbsent c) ∧
    (¬ challengeAbsent c → (Get2FARequest c).1.rw = c.rw) := by
  refine ⟨?_, ?_, ?_⟩
  · intro h
    rw [get_of_absent c h]
    exact ⟨rfl, rfl⟩
  · intro hw
    by_contra h
    rw [get_ctx_of_present c h] at hw
    simp [wroteNoUserid] at hw
  · intro h
    rw [get_ctx_of_present c h]

/-- C2 at a fresh session: nothing is stored, so the error branch is taken. -/
theorem get_reports_absent_witness :
    challengeAbsent AuthPlzCtx.fresh ∧
    (Get2FARequest AuthPlzCtx.fresh).2 = Except.ok ("", "") ∧
    wroteNoUserid AuthPlzCtx.fresh (Get2FARequest AuthPlzCtx.fresh).1 :=
  ⟨Or.inl rfl, (get_reports_absent AuthPlzCtx.fresh).1 (Or.inl rfl)⟩

/-- C3: binding `(u1, a1)` and then `(u2, a2)` on the same session makes
`Get2FARequest` return `(u2, a2)`, and the session store is the one a single
bind of `(u2, a2)` produces: nothing of `(u1, a1)` remains. -/
theorem bind_overwrites (c : AuthPlzCtx) (u1 a1 u2 a2 : String) :
    (Get2FARequest (Bind2FARequest (Bind2FARequest c u1 a1) u2 a2)).2 = Except.ok (u2, a2) ∧
    (Bind2FARequest (Bind2FARequest c u1 a1) u2 a2).SessionStore =
      (Bind2FARequest c u2 a2).SessionStore := by
  constructor
  · obtain ⟨h1, h2⟩ := bind_store (Bind2FARequest c u1 a1) u2 a2
    unfold Get2FARequest
    simp only [h1, h2, assertString]
  · funext n
    by_cases hn : n = secondFactorRequestSessionKey
    · subst hn
      simp only [Bind2FARequest, storeSession, if_true]
      congr 1
      funext j
      simp only [Values.set]
      by_cases hj : j = secondFactorActionSessionKey
      · simp [hj]
      · by_cases hk : j = secondFactorRequestSessionKey
        · simp [hj, hk]
        · simp [hj, hk]
    · simp [Bind2FARequest, storeSession, hn]

/-- C9: `Get2FARequest` only reads: the session store after the call is the
one before it, and a second call returns what the first returned. -/
theorem get_does_not_consume (c : AuthPlzCtx) :
    (Get2FARequest c).1.SessionStore = c.SessionStore ∧
    (Get2FARequest (Get2FARequest c).1).2 = (Get2FARequest c).2 :=
  ⟨get_store c, get_result_congr _ _ (get_store c)⟩

/-! ## Audit events endpoint -/

/-- C7: with an empty context user id `GetEvents` writes Unauthorized and
nothing else: no `ListEvents` call, no event data. With a non-empty user id it
calls `ListEvents` for exactly that user id, then writes the events as JSON
when the call succeeded and an internal error when it failed. -/
theorem getEvents_checks_login {E : Type} (c : APICtx E) :
    (c.GetUserID = "" →
      GetEvents c = [AuditEffect.WriteUnauthorized] ∧
      (GetEvents c).any AuditEffect.isListEvents = false ∧
      (GetEvents c).any AuditEffect.isWriteJSON = false) ∧
    (c.GetUserID ≠ "" → ∀ events, c.ac.ListEvents c.GetUserID = (events, none) →
      GetEvents c = [AuditEffect.ListEvents c.GetUserID, AuditEffect.WriteJSON events]) ∧
    (c.GetUserID ≠ "" → ∀ events err, c.ac.ListEvents c.GetUserID = (events, some err) →
      GetEvents c =
        [AuditEffect.ListEvents c.GetUserID,
         AuditEffect.Log ("AuditApiCtx.GetEvents: error listing events (" ++ err ++ ")"),
         AuditEffect.WriteInternalError] ∧
      (GetEvents c).any AuditEffect.isWriteJSON = false) := by
  refine ⟨?_, ?_, ?_⟩
  · intro h
    have hg : GetEvents c = [AuditEffect.WriteUnauthorized] := by
      unfold GetEvents
      rw [if_pos h]
    rw [hg]
    exact ⟨rfl, rfl, rfl⟩
  · intro h events hl
    unfold GetEvents
    rw [if_neg h, hl]
  · intro h events err hl
    have hg : GetEvents c =
        [AuditEffect.ListEvents c.GetUserID,
         AuditEffect.Log ("AuditApiCtx.GetEvents: error listing events (" ++ err ++ ")"),
         AuditEffect.WriteInternalError] := by
      unfold GetEvents
      rw [if_neg h, hl]
    rw [hg]
    exact ⟨rfl, rfl⟩

/-- C7 at a request without a logged-in user. -/
theorem getEvents_checks_login_witness :
    GetEvents { userid := "", ac := sampleController } = [AuditEffect.WriteUnauthorized] :=
  ((getEvents_checks_login { userid := "", ac := sampleController }).1 rfl).1

/-! ## Users -/

/-- C8: `SecondFactors` answers true exactly when the user has at least one
FIDO token or at least one TOTP token, and the user is left as it was. -/
theorem secondFactors_iff {F T A : Type} (u : User F T A) :
    (u.SecondFactors.1 = true ↔ (u.FidoTokens ≠ [] ∨ u.TotpTokens ≠ [])) ∧
    u.SecondFactors.2 = u := by
  refine ⟨?_, rfl⟩
  simp [User.SecondFactors, List.length_pos]

/-- C10: for an email `IsEmail` rejects, `AddUser` returns a nil user and the
`invalid email address` error, and the data store is the one passed in,
whatever `Create` would have done. -/
theorem addUser_invalid_email {DB F T A : Type} (IsEmail : String → Bool) (newV4 : String)
    (gorm : Gorm DB F T A) (dataStore : DataStore DB) (email pass : String)
    (h : IsEmail email = false) :
    AddUser IsEmail newV4 gorm dataStore email pass =
      (dataStore, none, some ("invalid email address " ++ email)) := by
  unfold AddUser
  simp [h]

/-- C10 at the address `nobody`, on a store that already holds nothing. -/
theorem addUser_invalid_email_witness :
    sampleIsEmail "nobody" = false ∧
    AddUser sampleIsEmail "uuid-1" memGorm { db := { rows := [], lastError := none } }
        "nobody" "password123@" =
      ({ db := { rows := [], lastError := none } }, none,
       some ("invalid email address " ++ "nobody")) :=
  ⟨by decide,
   addUser_invalid_email sampleIsEmail "uuid-1" memGorm
     { db := { rows := [], lastError := none } } "nobody" "password123@" (by decide)⟩

/-- On a valid address `AddUser` does reach `Create`: the sample store gains
the row and the user comes back. -/
theorem addUser_valid_creates :
    (AddUser sampleIsEmail "uuid-1" memGorm { db := { rows := [], lastError := none } }
        "test@email.com" "password123@").1.db.rows.length = 1 ∧
    (AddUser sampleIsEmail "uuid-1" memGorm { db := { rows := [], lastError := none } }
        "test@email.com" "password123@").2.2 = none := by
  decide

/-! ## Second-factor registry -/

/-- Looking a name up in the availability map. -/
theorem lookup_availability {σ : Type} (s : σ) (userID name : String)
    (handlers : List (String × SecondFactorProvider σ)) :
    (handlers.map (fun e => (e.1, e.2.IsSupported userID s))).lookup name =
      (handlers.lookup name).map (fun p => p.IsSupported userID s) := by
  induction handlers with
  | nil => rfl
  | cons e rest ih =>
    obtain ⟨k, p⟩ := e
    simp only [List.map_cons, List.lookup_cons]
    cases name == k with
    | true => rfl
    | false => exact ih

/-- C4: the availability map of `CheckSecondFactors` has exactly the
registered names as keys, each mapped to `IsSupported(userID)` of its
provider; `required` is true iff at least one registered provider reports
true; with no providers the result is `(false, {})`. -/
theorem checkSecondFactors_spec {σ U : Type} (cm : CoreModule σ U) (s : σ) (userID : String) :
    (CheckSecondFactors cm s userID).2.map Prod.fst = cm.secondFactorHandlers.map Prod.fst ∧
    (∀ name, (CheckSecondFactors cm s userID).2.lookup name =
      (cm.secondFactorHandlers.lookup name).map (fun p => p.IsSupported userID s)) ∧
    ((CheckSecondFactors cm s userID).1 = true ↔
      ∃ e ∈ cm.secondFactorHandlers, e.2.IsSupported userID s = true) ∧
    CheckSecondFactors (NewCoreModule cm.tokenControl : CoreModule σ U) s userID = (false, []) := by
  refine ⟨?_, ?_, ?_, rfl⟩
  · simp [CheckSecondFactors, Function.comp_def]
  · intro name
    exact lookup_availability s userID name cm.secondFactorHandlers
  · simp only [CheckSecondFactors, List.any_eq_true, List.mem_map]
    constructor
    · rintro ⟨x, ⟨e, he, rfl⟩, hx⟩
      exact ⟨e, he, hx⟩
    · rintro ⟨e, he, hx⟩
      exact ⟨_, ⟨e, he, rfl⟩, hx⟩

/-- The second test of `core_test.go`: with the mock bound as `mock-2fa`, the
answer follows the flag of the mock, and the name is present either way. -/
theorem test_bind_and_check_second_factor (inv : String) :
    CheckSecondFactors
        (BindSecondFactor (NewCoreModule testTokenControl : CoreModule MockHandler Unit)
          "mock-2fa" mockSecondFactor)
        { testMock inv with SecondFactorRequired := false } "fake" =
      (false, [("mock-2fa", false)]) ∧
    CheckSecondFactors
        (BindSecondFactor (NewCoreModule testTokenControl : CoreModule MockHandler Unit)
          "mock-2fa" mockSecondFactor)
        { testMock inv with SecondFactorRequired := true } "fake" =
      (true, [("mock-2fa", true)]) :=
  ⟨rfl, rfl⟩

/-- Registering under a name that is taken replaces the earlier entry. -/
theorem register_last_wins {α : Type} (registry : List (String × α)) (name : String) (x : α) :
    (register registry name x).lookup name = some x ∧
    ((register registry name x).filter (fun e => e.1 == name)).length = 1 := by
  constructor
  · simp [register, List.lookup_cons]
  · simp [register, List.filter_cons, List.filter_filter]

/-! ## Token redemption -/

/-- A token verified at the instant it was built, with a validity that is not
negative, yields the claims it was built from. -/
theorem verify_build (tc : TokenController) (now : Int) (userID action : String)
    (validity : Int) (hv : 0 ≤ validity) :
    VerifyToken tc now (BuildToken tc now userID action validity).1 =
      Except.ok { subjectUserID := userID, action := action
                  issuedAt := now, expiresAt := now + validity } := by
  have hexp : ¬ (now > now + validity) := by omega
  simp [BuildToken, VerifyToken, hexp]

/-- C5 (amended): redeeming a freshly built token of positive validity for
the same user, with a handler bound for the action, invokes that handler with
exactly that action and returns its result: ok = true and no error when the
handler reports none, ok = false and the error of the handler otherwise. -/
theorem handleToken_fresh_token {σ U : Type} (cm : CoreModule σ U) (now : Int)
    (userID action : String) (user : U) (validity : Int) (s : σ)
    (handler : ActionHandler σ U) (hv : 0 < validity)
    (hb : cm.tokenHandlers.lookup action = some handler) :
    (HandleToken cm now userID user
        (BuildToken cm.tokenControl now userID action validity).1 s).invoked = [action] ∧
    (HandleToken cm now userID user
        (BuildToken cm.tokenControl now userID action validity).1 s).state =
      (handler.HandleToken user action s).1 ∧
    (HandleToken cm now userID user
        (BuildToken cm.tokenControl now userID action validity).1 s).err =
      (handler.HandleToken user action s).2.map CoreError.collaborator ∧
    ((handler.HandleToken user action s).2 = none →
      (HandleToken cm now userID user
          (BuildToken cm.tokenControl now userID action validity).1 s).ok = true ∧
      (HandleToken cm now userID user
          (BuildToken cm.tokenControl now userID action validity).1 s).err = none) ∧
    (∀ e, (handler.HandleToken user action s).2 = some e →
      (HandleToken cm now userID user
          (BuildToken cm.tokenControl now userID action validity).1 s).ok = false ∧
      (HandleToken cm now userID user
          (BuildToken cm.tokenControl now userID action validity).1 s).err =
        some (CoreError.collaborator e)) := by
  have hver := verify_build cm.tokenControl now userID action validity (le_of_lt hv)
  have hred : HandleToken cm now userID user
      (BuildToken cm.tokenControl now userID action validity).1 s =
      { ok := (handler.HandleToken user action s).2.isNone
        err := (handler.HandleToken user action s).2.map CoreError.collaborator
        state := (handler.HandleToken user action s).1
        invoked := [action] } := by
    unfold HandleToken
    rw [hver]
    simp [Dispatch, hb]
  rw [hred]
  refine ⟨rfl, rfl, rfl, ?_, ?_⟩
  · intro hnone
    simp [hnone]
  · intro e hsome
    simp [hsome]

/-- C5 on the first test of `core_test.go`: the mock is bound for
`mock-action`, the token is built for `fakeid` with ten minutes of validity,
and the redemption is ok, without error, with the action recorded. -/
theorem handleToken_fresh_token_witness :
    (0 : Int) < 600 ∧
    (HandleToken testCore 0 "fakeid" ()
        (BuildToken testTokenControl 0 "fakeid" "mock-action" 600).1 (testMock "invalid")).ok = true ∧
    (HandleToken testCore 0 "fakeid" ()
        (BuildToken testTokenControl 0 "fakeid" "mock-action" 600).1 (testMock "invalid")).err = none ∧
    (HandleToken testCore 0 "fakeid" ()
        (BuildToken testTokenControl 0 "fakeid" "mock-action" 600).1
        (testMock "invalid")).state.TokenAction = "mock-action" :=
  have h := handleToken_fresh_token testCore 0 "fakeid" "mock-action" () 600 (testMock "invalid")
    mockActionHandler (by decide) rfl
  ⟨by decide, (h.2.2.2.1 rfl).1, (h.2.2.2.1 rfl).2, congrArg MockHandler.TokenAction h.2.1⟩

/-- C5 as stated fails when the bound handler itself fails: the handler is
bound, the token is fresh and of positive validity, and the redemption is not
ok and carries the error of the handler. -/
theorem handleToken_refused_counterexample :
    (0 : Int) < 600 ∧
    (refusingCore.tokenHandlers.lookup "mock-action").isSome = true ∧
    (HandleToken refusingCore 0 "fakeid" ()
        (BuildToken refusingCore.tokenControl 0 "fakeid" "mock-action" 600).1
        (testMock "invalid")).ok = false ∧
    (HandleToken refusingCore 0 "fakeid" ()
        (BuildToken refusingCore.tokenControl 0 "fakeid" "mock-action" 600).1
        (testMock "invalid")).err = some (CoreError.collaborator "refused") ∧
    (HandleToken refusingCore 0 "fakeid" ()
        (BuildToken refusingCore.tokenControl 0 "fakeid" "mock-action" 600).1
        (testMock "invalid")).invoked = ["mock-action"] := by
  refine ⟨by decide, rfl, rfl, rfl, rfl⟩

/-- C6 (amended): for a token whose subject differs from the caller,
`HandleToken` is not ok, invokes no handler and leaves the state alone; when
signature and expiry are valid the error is `UserMismatch`, and when
verification fails the verification error is returned instead. -/
theorem handleToken_subject_mismatch {σ U : Type} (cm : CoreModule σ U) (now : Int)
    (callerUserID : String) (user : U) (claims : TokenClaims) (signature : Nat) (s : σ)
    (hne : claims.subjectUserID ≠ callerUserID) :
    (HandleToken cm now callerUserID user (Token.signed claims signature) s).ok = false ∧
    (HandleToken cm now callerUserID user (Token.signed claims signature) s).invoked = [] ∧
    (HandleToken cm now callerUserID user (Token.signed claims signature) s).state = s ∧
    (cm.tokenControl.sign cm.tokenControl.secret claims = signature ∧ now ≤ claims.expiresAt →
      (HandleToken cm now callerUserID user (Token.signed claims signature) s).err =
        some (CoreError.token TokenError.UserMismatch)) ∧
    (∀ e, VerifyToken cm.tokenControl now (Token.signed claims signature) = Except.error e →
      (HandleToken cm now callerUserID user (Token.signed claims signature) s).err =
        some (CoreError.token e)) := by
  cases hver : VerifyToken cm.tokenControl now (Token.signed claims signature) with
  | error e =>
    have hred : HandleToken cm now callerUserID user (Token.signed claims signature) s =
        { ok := false, err := some (CoreError.token e), state := s, invoked := [] } := by
      unfold HandleToken
      rw [hver]
    rw [hred]
    refine ⟨rfl, rfl, rfl, ?_, ?_⟩
    · rintro ⟨hsig, hexp⟩
      have hnot : ¬ (now > claims.expiresAt) := by omega
      simp [VerifyToken, hsig, hnot] at hver
    · intro e2 he2
      cases he2
      rfl
  | ok verified =>
    have hsame : verified = claims := by
      by_cases hsig : cm.tokenControl.sign cm.tokenControl.secret claims = signature
      · by_cases hexp : now > claims.expiresAt
        · simp [VerifyToken, hsig, hexp] at hver
        · simp [VerifyToken, hsig, hexp] at hver
          exact hver.symm
      · simp [VerifyToken, hsig] at hver
    subst hsame
    have hred : HandleToken cm now callerUserID user (Token.signed verified signature) s =
        { ok := false, err := some (CoreError.token TokenError.UserMismatch)
          state := s, invoked := [] } := by
      unfold HandleToken
      rw [hver]
      simp [hne]
    rw [hred]
    refine ⟨rfl, rfl, rfl, fun _ => rfl, ?_⟩
    intro e he
    cases he

/-- C6 on a valid token of `fakeid` presented by `intruder`: `UserMismatch`,
and the mock handler bound for the action is not invoked. -/
theorem handleToken_subject_mismatch_witness :
    "fakeid" ≠ "intruder" ∧
    (HandleToken testCore 0 "intruder" ()
        (BuildToken testTokenControl 0 "fakeid" "mock-action" 600).1 (testMock "invalid")).err =
      some (CoreError.token TokenError.UserMismatch) ∧
    (HandleToken testCore 0 "intruder" ()
        (BuildToken testTokenControl 0 "fakeid" "mock-action" 600).1 (testMock "invalid")).invoked = [] :=
  have h := handleToken_subject_mismatch testCore 0 "intruder" ()
    { subjectUserID := "fakeid", action := "mock-action", issuedAt := 0, expiresAt := 0 + 600 }
    (testTokenControl.sign testTokenControl.secret
      { subjectUserID := "fakeid", action := "mock-action", issuedAt := 0, expiresAt := 0 + 600 })
    (testMock "invalid") (by decide)
  ⟨by decide, h.2.2.2.1 ⟨rfl, by decide⟩, h.2.1⟩

/-- C6 as stated fails on a token that does not verify: the token of `fakeid`
has expired when `intruder` presents it, and the error is `Expired`, not
`UserMismatch`. -/
theorem handleToken_expired_counterexample :
    "fakeid" ≠ "intruder" ∧
    (HandleToken testCore 601 "intruder" ()
        (BuildToken testTokenControl 0 "fakeid" "mock-action" 600).1 (testMock "invalid")).err =
      some (CoreError.token TokenError.Expired) ∧
    (HandleToken testCore 601 "intruder" ()
        (BuildToken testTokenControl 0 "fakeid" "mock-action" 600).1 (testMock "invalid")).err ≠
      some (CoreError.token TokenError.UserMismatch) := by
  refine ⟨by decide, rfl, ?_⟩
  decide

end AuthPlz
